import Mathlib

/-
Verification of the message-streaming hub of the github-mcp server
(internal/mcp: types.go, mcp_streamer.go, stream_handler.go).

The Go source is shallowly embedded as pure Lean functions.  Go values of
type `interface{}` that flow into `encoding/json` are modelled by the
inductive `Json`; Go machine integers that reach JSON are modelled by `Int`
(no arithmetic overflow occurs in the embedded code paths).  The mutable
`StreamHandler` state (the map of client connections guarded by
`clientsMux`) is modelled by explicit state passing; each observable side
effect of a call (a JSON serialization, a frame written to a client's
sink, a terminal-signal close, a warning log for a missing client) is
recorded in an explicit effect trace so that properties about "no
delivery happened" are statable.  Sequential executions are modelled
directly; the one concurrency artefact that matters to the properties
below (the absence of a per-connection write lock in `sendEvent`) is
modelled by an explicit interleaving semantics of unsynchronized sink
writes.
-/

namespace GithubMcp

/-- JSON values, the model of Go `interface it` values handed to
`encoding/json.Marshal`.  Numbers are `Int` (all numbers appearing in the
embedded code are Go integers). -/
inductive Json where
  | null
  | bool (b : Bool)
  | num (n : Int)
  | str (s : String)
  | arr (elems : List Json)
  | obj (fields : List (String × Json))

/-- String escaping performed by `encoding/json` for the characters that
occur in the embedded code paths (quote, backslash and ASCII control
whitespace). -/
def escapeChar (c : Char) : String :=
  if c = '"' then "\\\""
  else if c = '\\' then "\\\\"
  else if c = '\n' then "\\n"
  else if c = '\r' then "\\r"
  else if c = '\t' then "\\t"
  else String.singleton c

/-- A JSON string literal: quote, escape-map, quote (Go `encoding/json`). -/
def jsonQuote (s : String) : String :=
  "\"" ++ String.join (s.data.map escapeChar) ++ "\""

mutual

/-- Serialization of a `Json` value to wire text, the model of Go
`encoding/json.Marshal` (object fields are kept in the order the embedded
code constructs them). -/
def serializeJson : Json → String
  | Json.null => "null"
  | Json.bool true => "true"
  | Json.bool false => "false"
  | Json.num n => toString n
  | Json.str s => jsonQuote s
  | Json.arr xs => "[" ++ serializeArr xs ++ "]"
  | Json.obj fs => "\x7b" ++ serializeObj fs ++ "\x7d"

/-- Comma-separated serialization of array elements. -/
def serializeArr : List Json → String
  | [] => ""
  | [x] => serializeJson x
  | x :: y :: xs => serializeJson x ++ "," ++ serializeArr (y :: xs)

/-- Comma-separated serialization of object fields. -/
def serializeObj : List (String × Json) → String
  | [] => ""
  | [(k, v)] => jsonQuote k ++ ":" ++ serializeJson v
  | (k, v) :: f :: fs => jsonQuote k ++ ":" ++ serializeJson v ++ "," ++ serializeObj (f :: fs)

end

/-- `RPCError` from types.go: `Code int`, `Message string`,
`Data interface it` with `omitempty`. -/
structure RPCError where
  code : Int
  message : String
  data : Option Json

/-- `JSONRPCMessage` from types.go.  Go `nil` interface fields are `none`;
the `Method` field is a plain Go string whose zero value `""` means
"absent" (that is exactly how the Go code tests it). -/
structure JSONRPCMessage where
  jsonrpc : String
  id : Option Json
  method : String
  params : Option Json
  result : Option Json
  error : Option RPCError

/-- `json.Marshal` of an `RPCError` (struct field order; `data` has
`omitempty`). -/
def marshalRPCError (e : RPCError) : Json :=
  Json.obj ([("code", Json.num e.code), ("message", Json.str e.message)] ++
    (match e.data with
     | some d => [("data", d)]
     | none => []))

/-- `json.Marshal` of a `JSONRPCMessage` (struct field order; every field
except `jsonrpc` carries `omitempty`, so `nil` interfaces and the empty
method string are omitted). -/
def marshalMessage (m : JSONRPCMessage) : Json :=
  Json.obj ([("jsonrpc", Json.str m.jsonrpc)] ++
    (match m.id with
     | some i => [("id", i)]
     | none => []) ++
    (if m.method = "" then [] else [("method", Json.str m.method)]) ++
    (match m.params with
     | some p => [("params", p)]
     | none => []) ++
    (match m.result with
     | some r => [("result", r)]
     | none => []) ++
    (match m.error with
     | some e => [("error", marshalRPCError e)]
     | none => []))

/-- `IsRequest` (types.go): `m.Method != "" && m.ID != nil`. -/
def JSONRPCMessage.IsRequest (m : JSONRPCMessage) : Bool :=
  m.method != "" && m.id.isSome

/-- `IsResponse` (types.go):
`m.Method == "" && m.ID != nil && (m.Result != nil || m.Error != nil)`. -/
def JSONRPCMessage.IsResponse (m : JSONRPCMessage) : Bool :=
  m.method == "" && m.id.isSome && (m.result.isSome || m.error.isSome)

/-- `IsNotification` (types.go): `m.Method != "" && m.ID == nil`. -/
def JSONRPCMessage.IsNotification (m : JSONRPCMessage) : Bool :=
  m.method != "" && m.id.isNone

/-- `IsError` (types.go): `m.Error != nil`. -/
def JSONRPCMessage.IsError (m : JSONRPCMessage) : Bool :=
  m.error.isSome

/-- `NewRequest` (types.go). -/
def NewRequest (id : Json) (method : String) (params : Option Json) : JSONRPCMessage :=
  { jsonrpc := "2.0", id := some id, method := method, params := params,
    result := none, error := none }

/-- `NewResponse` (types.go). -/
def NewResponse (id : Json) (result : Json) : JSONRPCMessage :=
  { jsonrpc := "2.0", id := some id, method := "", params := none,
    result := some result, error := none }

/-- `NewErrorResponse` (types.go). -/
def NewErrorResponse (id : Json) (code : Int) (message : String) (data : Option Json) :
    JSONRPCMessage :=
  { jsonrpc := "2.0", id := some id, method := "", params := none,
    result := none, error := some { code := code, message := message, data := data } }

/-- `NewNotification` (types.go). -/
def NewNotification (method : String) (params : Option Json) : JSONRPCMessage :=
  { jsonrpc := "2.0", id := none, method := method, params := params,
    result := none, error := none }

/-- `getCurrentTimestamp` (mcp_streamer.go).  The source returns the
hard-coded placeholder `1640995200` (2022-01-01 00:00:00 UTC) instead of
the current clock, with the comment "For now, we'll use a placeholder". -/
def getCurrentTimestamp : Int := 1640995200

/-- `getEventType` (mcp_streamer.go): notification, then response
(error/success), then request, else the generic `"mcp_message"`. -/
def getEventType (m : JSONRPCMessage) : String :=
  if m.IsNotification then "mcp_notification"
  else if m.IsResponse then
    if m.IsError then "mcp_error" else "mcp_response"
  else if m.IsRequest then "mcp_request"
  else "mcp_message"

/-- `formatMessageForSSE` (mcp_streamer.go): marshal the message, wrap it
with the delivery metadata.  The marshal/unmarshal round trip through
`map[string]interface it` is the identity on the model; `json.Marshal`
is total on `Json`, so the source's error branch is unreachable here. -/
def formatMessageForSSE (m : JSONRPCMessage) : Json :=
  Json.obj ([("mcp_message", marshalMessage m)] ++
    (if m.IsRequest then [("message_type", Json.str "request")]
     else if m.IsResponse then [("message_type", Json.str "response")]
     else if m.IsNotification then [("message_type", Json.str "notification")]
     else []) ++
    [("timestamp", Json.num getCurrentTimestamp)])

/-- `formatSSEEvent` (stream_handler.go):
`fmt.Sprintf("event: %s\ndata: %s\n\n", eventType, jsonData)`. -/
def formatSSEEvent (eventType : String) (data : Json) : String :=
  "event: " ++ eventType ++ "\n" ++ "data: " ++ serializeJson data ++ "\n\n"

/-- Field lookup in a serialized JSON object (observer used by the
theorems about payload contents). -/
def jsonField (j : Json) (key : String) : Option Json :=
  match j with
  | Json.obj fs => (fs.find? (fun f => f.1 == key)).map (fun f => f.2)
  | _ => none

/-- `ClientConnection` (stream_handler.go).  The `Done chan struct\x7b\x7d`
one-shot signal is modelled by a flag (`done = true` once the channel has
been closed); the `http.ResponseWriter` sink is modelled by the ordered
list of frames successfully written to it; `LastSeen` is a Unix
timestamp. -/
structure ClientConnection where
  id : String
  done : Bool
  body : List String
  lastSeen : Int
deriving DecidableEq

/-- The mutable state of `StreamHandler` (stream_handler.go) that the
embedded operations touch: the `clients` map, modelled as a list of
connections keyed by `id` (Go map insertion order is irrelevant to every
property below; keys are unique in every reachable state).  The logger,
the `clientsMux` lock, the heartbeat interval, `stopCh` and the wait
group are concurrency plumbing with no bearing on the sequential
semantics. -/
structure StreamHandler where
  clients : List ClientConnection
deriving DecidableEq

/-- Observable side effects of one hub call, recorded in order:
`serializeMsg` is an invocation of `formatMessageForSSE` (the per-message
JSON serialization), `write` is a frame successfully written to one
client's sink, `closeDone` is a terminal-signal close caused by a write
failure, `warnMissing` is the warning logged when a unicast target is
not in the map. -/
inductive Effect where
  | serializeMsg
  | write (clientId : String) (frame : String)
  | closeDone (clientId : String)
  | warnMissing (clientId : String)
deriving DecidableEq

/-- The write effects of a trace (the actual deliveries). -/
def writesOf (effs : List Effect) : List Effect :=
  effs.filter (fun e => match e with
    | Effect.write _ _ => true
    | _ => false)

/-- Go `close` on the `Done` channel: closing an already-closed channel
panics at run time (`close of closed channel`). -/
inductive GoPanic where
  | closeOfClosedChannel
deriving DecidableEq

/-- Close the one-shot `Done` channel of a connection (`done` is the
closed flag); a second close is a run-time panic. -/
def closeChan (done : Bool) : Except GoPanic Bool :=
  if done then Except.error GoPanic.closeOfClosedChannel else Except.ok true

/-- `sendEvent` (stream_handler.go): skip if the client's `Done` channel
is already closed; otherwise format the frame and write it to the sink.
`writeOk` is the environment's verdict on the `fmt.Fprint` sink write
(the tests' mock writer always succeeds): on success the frame reaches
the sink and `LastSeen` is updated to the current time `now`; on failure
the terminal signal is fired (`close(client.Done)` — safe here because
the `select` guard just observed it open) and nothing is written. -/
def sendEvent (c : ClientConnection) (eventType : String) (data : Json) (now : Int)
    (writeOk : Bool) : ClientConnection × List Effect :=
  if c.done then (c, [])
  else if writeOk then
    ({ c with body := c.body ++ [formatSSEEvent eventType data], lastSeen := now },
     [Effect.write c.id (formatSSEEvent eventType data)])
  else
    ({ c with done := true }, [Effect.closeDone c.id])

/-- `GetConnectedClients` (stream_handler.go): the size of the map. -/
def GetConnectedClients (sh : StreamHandler) : Nat :=
  sh.clients.length

/-- Go map lookup `sh.clients[clientID]`. -/
def lookupClient (sh : StreamHandler) (clientID : String) : Option ClientConnection :=
  sh.clients.find? (fun c => c.id == clientID)

/-- `addClient` (stream_handler.go): Go map assignment
`sh.clients[client.ID] = client` — replaces the entry when the key is
present, inserts otherwise; no other effect is performed. -/
def addClient (sh : StreamHandler) (c : ClientConnection) : StreamHandler × List Effect :=
  if sh.clients.any (fun x => x.id == c.id) then
    ({ clients := sh.clients.map (fun x => if x.id == c.id then c else x) }, [])
  else
    ({ clients := sh.clients ++ [c] }, [])

/-- `removeClient` (stream_handler.go): `delete(sh.clients, clientID)`. -/
def removeClient (sh : StreamHandler) (clientID : String) : StreamHandler :=
  { clients := sh.clients.filter (fun c => c.id != clientID) }

/-- `BroadcastMessage` (stream_handler.go): snapshot the map under the
read lock, then `sendEvent` to every snapshotted client outside the
lock.  `wok` is the environment's per-client write verdict. -/
def BroadcastMessage (sh : StreamHandler) (eventType : String) (data : Json) (now : Int)
    (wok : String → Bool) : StreamHandler × List Effect :=
  ({ clients := sh.clients.map (fun c => (sendEvent c eventType data now (wok c.id)).1) },
   (sh.clients.map (fun c => (sendEvent c eventType data now (wok c.id)).2)).flatten)

/-- `SendToClient` (stream_handler.go): look the target up under the read
lock; if absent, log a warning and return; otherwise `sendEvent` to it. -/
def SendToClient (sh : StreamHandler) (clientID : String) (eventType : String) (data : Json)
    (now : Int) (writeOk : Bool) : StreamHandler × List Effect :=
  match lookupClient sh clientID with
  | none => (sh, [Effect.warnMissing clientID])
  | some c =>
    ({ clients := sh.clients.map (fun x =>
        if x.id == clientID then (sendEvent c eventType data now writeOk).1 else x) },
     (sendEvent c eventType data now writeOk).2)

/-- `sendHeartbeat` (stream_handler.go): snapshot, then send a
`"heartbeat"` event with payload `\x7b"timestamp": time.Now().Unix()\x7d`
to every client. -/
def sendHeartbeat (sh : StreamHandler) (now : Int) (wok : String → Bool) :
    StreamHandler × List Effect :=
  BroadcastMessage sh "heartbeat" (Json.obj [("timestamp", Json.num now)]) now wok

/-- `Stop` (stream_handler.go): after stopping the heartbeat loop, close
every remaining client's `Done` channel under the write lock and reset
the map to empty.  The closes are bare Go `close` calls, so a client
whose channel is already closed makes `Stop` panic. -/
def Stop (sh : StreamHandler) : Except GoPanic StreamHandler := do
  let _ ← sh.clients.mapM (fun c => closeChan c.done)
  pure { clients := [] }

/-- `generateClientID` (stream_handler.go):
`fmt.Sprintf("client_%d", time.Now().UnixNano())` — a pure function of
the nanosecond clock reading and of nothing else. -/
def generateClientID (nowUnixNano : Int) : String :=
  "client_" ++ toString nowUnixNano

/-- `MCPStreamer.StreamMessage` (mcp_streamer.go): early-exit with
success when the map is empty (before any serialization); otherwise
format once, classify, and broadcast.  The `streamHandler == nil` guard
is dropped: `NewStreamHandler` always wires the handler, and that branch
also returns success without delivering.  `json.Marshal` is total on the
model, so the formatting-error return is unreachable. -/
def StreamMessage (sh : StreamHandler) (message : JSONRPCMessage) (now : Int)
    (wok : String → Bool) : Except String Unit × StreamHandler × List Effect :=
  if GetConnectedClients sh == 0 then
    (Except.ok (), sh, [])
  else
    let out := BroadcastMessage sh (getEventType message) (formatMessageForSSE message) now wok
    (Except.ok (), out.1, Effect.serializeMsg :: out.2)

/-- `MCPStreamer.StreamMessageToClient` (mcp_streamer.go): format and
classify first (no zero-client early exit here), then `SendToClient`. -/
def StreamMessageToClient (sh : StreamHandler) (clientID : String) (message : JSONRPCMessage)
    (now : Int) (writeOk : Bool) : Except String Unit × StreamHandler × List Effect :=
  let out := SendToClient sh clientID (getEventType message) (formatMessageForSSE message) now writeOk
  (Except.ok (), out.1, Effect.serializeMsg :: out.2)

/-- The two text chunks of one SSE frame as they appear on the wire: the
`event:` line and the `data:` line with the terminating blank line.
`sendEvent` writes them to the shared sink with no per-connection lock,
so concurrent writers are unsynchronized below frame granularity. -/
def frameChunks (eventType : String) (data : Json) : List String :=
  ["event: " ++ eventType ++ "\n", "data: " ++ serializeJson data ++ "\n\n"]

/-- All interleavings of two chunk sequences: the possible orders in
which two unsynchronized writers can reach a shared sink. -/
def interleavings : List String → List String → List (List String)
  | [], ys => [ys]
  | x :: xs, [] => [x :: xs]
  | x :: xs, y :: ys =>
      (interleavings xs (y :: ys)).map (fun zs => x :: zs) ++
      (interleavings (x :: xs) ys).map (fun zs => y :: zs)
termination_by xs ys => xs.length + ys.length

/-- The sink contents that two concurrent unsynchronized writes can
produce (one outcome per interleaving). -/
def concurrentWriteOutcomes (f g : List String) : List String :=
  (interleavings f g).map (fun zs => String.join zs)

/-- Modelled from the spec: claim C1's classification precedence exactly
as written — notification (method present, no correlation id), then
request (method and correlation id present), then error response (no
method, error field present), then success response (no method, result
field present, no error) — anything else falling to the generic
category.  Category names are rendered with the event-type strings the
code actually emits. -/
def specClassificationAsWritten (m : JSONRPCMessage) : String :=
  if m.method != "" && m.id.isNone then "mcp_notification"
  else if m.method != "" && m.id.isSome then "mcp_request"
  else if m.method == "" && m.error.isSome then "mcp_error"
  else if m.method == "" && (m.result.isSome && m.error.isNone) then "mcp_response"
  else "mcp_message"

/-- Modelled from the spec, amended as the counterexample forces: the
error-response and success-response categories additionally require the
correlation id to be present (a response shape without an id falls to
the generic category). -/
def specClassificationAmended (m : JSONRPCMessage) : String :=
  if m.method != "" && m.id.isNone then "mcp_notification"
  else if m.method != "" && m.id.isSome then "mcp_request"
  else if m.method == "" && (m.id.isSome && m.error.isSome) then "mcp_error"
  else if m.method == "" && (m.id.isSome && m.result.isSome && m.error.isNone) then "mcp_response"
  else "mcp_message"

/-- A message whose only populated field is `error`: no method, no
correlation id. -/
def errorWithoutId : JSONRPCMessage :=
  { jsonrpc := "2.0", id := none, method := "", params := none, result := none,
    error := some { code := -32600, message := "invalid request", data := none } }

/-- C1 counterexample: the claim's precedence as written classifies a
message carrying an error field but no correlation id as an error
response, yet `getEventType` sends it to the generic `"mcp_message"`
category — the error-response rule in the code also requires an id. -/
theorem getEventType_error_without_id_diverges :
    specClassificationAsWritten errorWithoutId = "mcp_error" ∧
    getEventType errorWithoutId = "mcp_message" ∧
    "mcp_message" ≠ "mcp_error" :=
  ⟨rfl, rfl, by decide⟩

/-- C1 (amended): `getEventType` assigns every message the category given
by the precedence notification → request → error response (no method,
id present, error present) → success response (no method, id present,
result present, no error), with everything else falling to the generic
category; in particular method+id gives the request event type, result+id
without method the response event type, error+id without method the error
event type, and method without id the notification event type. -/
theorem getEventType_matches_amended_precedence (m : JSONRPCMessage) :
    getEventType m = specClassificationAmended m := by
  unfold getEventType specClassificationAmended JSONRPCMessage.IsNotification
    JSONRPCMessage.IsResponse JSONRPCMessage.IsRequest JSONRPCMessage.IsError
  by_cases hm : m.method = "" <;>
    cases hi : m.id <;> cases hr : m.result <;> cases he : m.error <;>
      simp [hm, hi, hr, he]

lemma flatten_map_singleton {α β : Type} (l : List α) (f : α → β) :
    (l.map (fun a => [f a])).flatten = l.map f := by
  induction l with
  | nil => rfl
  | cons a l ih => simp [ih]

lemma BroadcastMessage_state_open (sh : StreamHandler) (et : String) (d : Json) (now : Int)
    (h : ∀ c ∈ sh.clients, c.done = false) :
    (BroadcastMessage sh et d now (fun _ => true)).1.clients =
      sh.clients.map (fun c =>
        { c with body := c.body ++ [formatSSEEvent et d], lastSeen := now }) := by
  simp only [BroadcastMessage]
  exact List.map_congr_left (fun c hc => by simp [sendEvent, h c hc])

lemma BroadcastMessage_effects_open (sh : StreamHandler) (et : String) (d : Json) (now : Int)
    (h : ∀ c ∈ sh.clients, c.done = false) :
    (BroadcastMessage sh et d now (fun _ => true)).2 =
      sh.clients.map (fun c => Effect.write c.id (formatSSEEvent et d)) := by
  simp only [BroadcastMessage]
  rw [List.map_congr_left
    (g := fun c => [Effect.write c.id (formatSSEEvent et d)])
    (fun c hc => by simp [sendEvent, h c hc])]
  exact flatten_map_singleton _ _

/-- A registry holding exactly one connection whose terminal signal has
already fired (reachable: a sink write failed, `HandleSSE` has not yet
deregistered the client). -/
def closedClientRegistry : StreamHandler :=
  { clients := [{ id := "c1", done := true, body := [], lastSeen := 0 }] }

/-- A well-formed request message, `NewRequest(1, "ping", nil)`. -/
def pingRequest : JSONRPCMessage := NewRequest (Json.num 1) "ping" none

/-- C2 counterexample: a registry with N = 1 registered connection whose
terminal signal has fired — `StreamMessage` returns success but performs
zero deliveries, not one per registered connection. -/
theorem StreamMessage_skips_closed_connection :
    GetConnectedClients closedClientRegistry = 1 ∧
    (StreamMessage closedClientRegistry pingRequest 5 (fun _ => true)).1 = Except.ok () ∧
    writesOf (StreamMessage closedClientRegistry pingRequest 5 (fun _ => true)).2.2 = [] :=
  ⟨rfl, rfl, rfl⟩

/-- C2 (amended): for every registry in which no registered connection's
terminal signal has fired, and sink writes succeeding, `StreamMessage`
returns success and appends exactly one frame to every registered
connection's sink — the identical frame for all of them; with zero
connections it returns success having performed no serialization and no
write (the effect trace is empty and the state untouched). -/
theorem StreamMessage_fanout (sh : StreamHandler) (m : JSONRPCMessage) (now : Int)
    (h : ∀ c ∈ sh.clients, c.done = false) :
    (StreamMessage sh m now (fun _ => true)).1 = Except.ok () ∧
    (StreamMessage sh m now (fun _ => true)).2.1.clients =
      sh.clients.map (fun c =>
        { c with body := c.body ++ [formatSSEEvent (getEventType m) (formatMessageForSSE m)],
                 lastSeen := now }) ∧
    (StreamMessage sh m now (fun _ => true)).2.2 =
      (if sh.clients.isEmpty then [] else
        Effect.serializeMsg :: sh.clients.map (fun c =>
          Effect.write c.id (formatSSEEvent (getEventType m) (formatMessageForSSE m)))) := by
  cases hcl : sh.clients with
  | nil =>
      have hsh : sh = { clients := [] } := by
        cases sh
        simp_all
      subst hsh
      exact ⟨rfl, rfl, rfl⟩
  | cons a l =>
      have hne : (GetConnectedClients sh == 0) = false := by
        simp [GetConnectedClients, hcl]
      refine ⟨?_, ?_, ?_⟩
      · simp [StreamMessage, hne]
      · simp only [StreamMessage, hne, Bool.false_eq_true, if_false]
        rw [← hcl]
        exact BroadcastMessage_state_open sh _ _ now h
      · simp only [StreamMessage, hne, Bool.false_eq_true, if_false, hcl,
          List.isEmpty_cons]
        rw [← hcl]
        rw [BroadcastMessage_effects_open sh _ _ now h]

/-- A registry of two live connections. -/
def twoOpenClients : StreamHandler :=
  { clients := [{ id := "a", done := false, body := [], lastSeen := 0 },
                { id := "b", done := false, body := [], lastSeen := 0 }] }

/-- C2 witness: the fan-out theorem applied to a concrete registry of two
live connections. -/
theorem StreamMessage_fanout_witness :
    (∀ c ∈ twoOpenClients.clients, c.done = false) ∧
    ((StreamMessage twoOpenClients pingRequest 7 (fun _ => true)).1 = Except.ok () ∧
     (StreamMessage twoOpenClients pingRequest 7 (fun _ => true)).2.1.clients =
       twoOpenClients.clients.map (fun c =>
         { c with body := c.body ++
             [formatSSEEvent (getEventType pingRequest) (formatMessageForSSE pingRequest)],
                  lastSeen := 7 }) ∧
     (StreamMessage twoOpenClients pingRequest 7 (fun _ => true)).2.2 =
       (if twoOpenClients.clients.isEmpty then [] else
         Effect.serializeMsg :: twoOpenClients.clients.map (fun c =>
           Effect.write c.id
             (formatSSEEvent (getEventType pingRequest) (formatMessageForSSE pingRequest))))) :=
  ⟨by decide, StreamMessage_fanout twoOpenClients pingRequest 7 (by decide)⟩

lemma Stop_ok_empty (sh sh' : StreamHandler) (h : Stop sh = Except.ok sh') :
    sh' = { clients := [] } := by
  unfold Stop at h
  cases hm : sh.clients.mapM (fun c => closeChan c.done) with
  | error e => rw [hm] at h; simp [Bind.bind, Except.bind] at h
  | ok v =>
      rw [hm] at h
      simp [Bind.bind, Except.bind, pure, Except.pure] at h
      exact h.symm

/-- C3: once `Stop` has returned (without panicking), the connected-count
query answers 0, and every later delivery attempt — broadcast, unicast
to any previously-known id, or a heartbeat tick — writes nothing to any
sink and leaves the state untouched (the unicast only logs the
missing-client warning). -/
theorem Stop_drains (sh sh' : StreamHandler) (cid et : String) (d : Json) (now : Int)
    (wok : String → Bool) (w : Bool) (h : Stop sh = Except.ok sh') :
    GetConnectedClients sh' = 0 ∧
    BroadcastMessage sh' et d now wok = (sh', []) ∧
    SendToClient sh' cid et d now w = (sh', [Effect.warnMissing cid]) ∧
    sendHeartbeat sh' now wok = (sh', []) := by
  have he := Stop_ok_empty sh sh' h
  subst he
  exact ⟨rfl, rfl, rfl, rfl⟩

/-- A registry holding one live connection, used to witness the shutdown
theorem. -/
def oneOpenClient : StreamHandler :=
  { clients := [{ id := "w", done := false, body := [], lastSeen := 1 }] }

/-- C3 witness: `Stop` on a one-connection registry succeeds, and the
drained-registry conclusions hold at concrete arguments. -/
theorem Stop_drains_witness :
    Stop oneOpenClient = Except.ok { clients := [] } ∧
    (GetConnectedClients { clients := [] } = 0 ∧
     BroadcastMessage { clients := [] } "test" Json.null 9 (fun _ => true) =
       ({ clients := [] }, []) ∧
     SendToClient { clients := [] } "w" "test" Json.null 9 true =
       ({ clients := [] }, [Effect.warnMissing "w"]) ∧
     sendHeartbeat { clients := [] } 9 (fun _ => true) = ({ clients := [] }, [])) :=
  ⟨rfl, Stop_drains oneOpenClient { clients := [] } "w" "test" Json.null 9
    (fun _ => true) true rfl⟩

/-- C5: unicast to an id that is not in the registry returns success,
leaves the registry untouched, and delivers nothing to any connected
client — the only effects are the one message serialization and the
missing-client warning. -/
theorem StreamMessageToClient_missing_id (sh : StreamHandler) (clientID : String)
    (m : JSONRPCMessage) (now : Int) (w : Bool)
    (h : lookupClient sh clientID = none) :
    (StreamMessageToClient sh clientID m now w).1 = Except.ok () ∧
    (StreamMessageToClient sh clientID m now w).2.1 = sh ∧
    writesOf (StreamMessageToClient sh clientID m now w).2.2 = [] := by
  simp [StreamMessageToClient, SendToClient, h, writesOf]

/-- A registry holding one live connection named `"a"`. -/
def registryWithA : StreamHandler :=
  { clients := [{ id := "a", done := false, body := [], lastSeen := 0 }] }

/-- C5 witness: unicast to the absent id `"ghost"` on a registry whose
only client is `"a"`. -/
theorem StreamMessageToClient_missing_id_witness :
    lookupClient registryWithA "ghost" = none ∧
    ((StreamMessageToClient registryWithA "ghost" pingRequest 4 true).1 = Except.ok () ∧
     (StreamMessageToClient registryWithA "ghost" pingRequest 4 true).2.1 = registryWithA ∧
     writesOf (StreamMessageToClient registryWithA "ghost" pingRequest 4 true).2.2 = []) :=
  ⟨rfl, StreamMessageToClient_missing_id registryWithA "ghost" pingRequest 4 true rfl⟩

lemma writesOf_cons_serialize (l : List Effect) :
    writesOf (Effect.serializeMsg :: l) = writesOf l := rfl

lemma writesOf_map_write {α : Type} (l : List α) (f g : α → String) :
    writesOf (l.map (fun a => Effect.write (f a) (g a))) =
      l.map (fun a => Effect.write (f a) (g a)) := by
  induction l with
  | nil => rfl
  | cons a l ih =>
      simp only [List.map_cons, writesOf, List.filter_cons_of_pos] at ih ⊢
      rw [ih]

/-- A message matching none of the classification shapes: no method, no
correlation id, no result, no error (only the protocol version). -/
def malformedMessage : JSONRPCMessage :=
  { jsonrpc := "2.0", id := none, method := "", params := none, result := none,
    error := none }

/-- A registry holding one live connection named `"m1"`. -/
def registryWithM1 : StreamHandler :=
  { clients := [{ id := "m1", done := false, body := [], lastSeen := 0 }] }

/-- C4 counterexample: a message failing all three classification shapes
is not refused — both `StreamMessage` and `StreamMessageToClient` return
success and deliver it to the connected client under the generic
`"mcp_message"` event type. -/
theorem StreamMessage_delivers_malformed :
    (malformedMessage.IsRequest = false ∧ malformedMessage.IsResponse = false ∧
     malformedMessage.IsNotification = false) ∧
    (StreamMessage registryWithM1 malformedMessage 3 (fun _ => true)).1 = Except.ok () ∧
    writesOf (StreamMessage registryWithM1 malformedMessage 3 (fun _ => true)).2.2 =
      [Effect.write "m1" (formatSSEEvent "mcp_message" (formatMessageForSSE malformedMessage))] ∧
    (StreamMessageToClient registryWithM1 "m1" malformedMessage 3 true).1 = Except.ok () ∧
    writesOf (StreamMessageToClient registryWithM1 "m1" malformedMessage 3 true).2.2 =
      [Effect.write "m1" (formatSSEEvent "mcp_message" (formatMessageForSSE malformedMessage))] :=
  ⟨⟨rfl, rfl, rfl⟩, rfl, rfl, rfl, rfl⟩

/-- C4 (amended): the Streamer does not refuse malformed messages — every
message failing all three classification shapes is assigned the generic
`"mcp_message"` event type, `StreamMessage` returns success, and the
message is delivered once to every live registered connection exactly
like a classified one (a local error is returned only when JSON
serialization fails, which the shape check does not imply). -/
theorem StreamMessage_malformed_not_refused (sh : StreamHandler) (m : JSONRPCMessage)
    (now : Int)
    (hm : m.IsRequest = false ∧ m.IsResponse = false ∧ m.IsNotification = false)
    (hopen : ∀ c ∈ sh.clients, c.done = false) :
    getEventType m = "mcp_message" ∧
    (StreamMessage sh m now (fun _ => true)).1 = Except.ok () ∧
    writesOf (StreamMessage sh m now (fun _ => true)).2.2 =
      sh.clients.map (fun c =>
        Effect.write c.id (formatSSEEvent "mcp_message" (formatMessageForSSE m))) := by
  obtain ⟨h1, h2, h3⟩ := hm
  have hev : getEventType m = "mcp_message" := by
    simp [getEventType, h1, h2, h3]
  refine ⟨hev, ?_, ?_⟩
  · unfold StreamMessage
    split <;> rfl
  · cases hcl : sh.clients with
    | nil =>
        have hsh : sh = { clients := [] } := by
          cases sh
          simp_all
        subst hsh
        rfl
    | cons a l =>
        have hne : (GetConnectedClients sh == 0) = false := by
          simp [GetConnectedClients, hcl]
        simp only [StreamMessage, hne, Bool.false_eq_true, if_false]
        rw [← hcl, writesOf_cons_serialize,
          BroadcastMessage_effects_open sh _ _ now hopen, hev]
        exact writesOf_map_write sh.clients (fun c => c.id)
          (fun _ => formatSSEEvent "mcp_message" (formatMessageForSSE m))

/-- C4 witness: the amended theorem applied to the malformed message and
the one-client registry. -/
theorem StreamMessage_malformed_not_refused_witness :
    ((malformedMessage.IsRequest = false ∧ malformedMessage.IsResponse = false ∧
      malformedMessage.IsNotification = false) ∧
     (∀ c ∈ registryWithM1.clients, c.done = false)) ∧
    (getEventType malformedMessage = "mcp_message" ∧
     (StreamMessage registryWithM1 malformedMessage 3 (fun _ => true)).1 = Except.ok () ∧
     writesOf (StreamMessage registryWithM1 malformedMessage 3 (fun _ => true)).2.2 =
       registryWithM1.clients.map (fun c =>
         Effect.write c.id
           (formatSSEEvent "mcp_message" (formatMessageForSSE malformedMessage)))) :=
  ⟨⟨⟨rfl, rfl, rfl⟩, by decide⟩,
   StreamMessage_malformed_not_refused registryWithM1 malformedMessage 3
     ⟨rfl, rfl, rfl⟩ (by decide)⟩

/-- C6: the frame written for a protocol message is exactly the `event:`
line, the `data:` line and a blank line, and its JSON payload carries the
original message body under `mcp_message`, a restated message-type
string under `message_type` for every classified shape — but the field
named `timestamp` is always the hard-coded placeholder `1640995200`
(`getCurrentTimestamp` ignores the clock), not a timestamp of the
delivery. -/
theorem sseFrame_shape_and_payload_fields (m : JSONRPCMessage) :
    formatSSEEvent (getEventType m) (formatMessageForSSE m) =
      "event: " ++ getEventType m ++ "\n" ++ "data: " ++
        serializeJson (formatMessageForSSE m) ++ "\n\n" ∧
    jsonField (formatMessageForSSE m) "mcp_message" = some (marshalMessage m) ∧
    jsonField (formatMessageForSSE m) "message_type" =
      (if m.IsRequest then some (Json.str "request")
       else if m.IsResponse then some (Json.str "response")
       else if m.IsNotification then some (Json.str "notification")
       else none) ∧
    jsonField (formatMessageForSSE m) "timestamp" = some (Json.num 1640995200) := by
  refine ⟨rfl, rfl, ?_, ?_⟩ <;>
    by_cases h1 : m.IsRequest <;> by_cases h2 : m.IsResponse <;>
      by_cases h3 : m.IsNotification <;>
        simp [formatMessageForSSE, jsonField, List.find?, h1, h2, h3, getCurrentTimestamp]

/-- A live connection on which a sink write is about to fail. -/
def failingClient : ClientConnection :=
  { id := "f1", done := false, body := [], lastSeen := 0 }

/-- C7: firing the terminal signal is not idempotent.  A write failure
fires the signal (a bare Go `close` on `Done`); if `Stop` then runs
while that client is still registered — the deregistration in
`HandleSSE` has not happened yet — `Stop`'s own unconditional `close`
hits an already-closed channel and panics instead of being a safe
no-op. -/
theorem Stop_panics_after_write_failure_fired_signal :
    (sendEvent failingClient "mcp_request" Json.null 2 false).1.done = true ∧
    (sendEvent failingClient "mcp_request" Json.null 2 false).2 =
      [Effect.closeDone "f1"] ∧
    Stop { clients := [(sendEvent failingClient "mcp_request" Json.null 2 false).1] } =
      Except.error GoPanic.closeOfClosedChannel :=
  ⟨rfl, rfl, rfl⟩

/-- C8: the id generated at registration time is a pure function of the
nanosecond clock reading and of nothing else, so two registrations that
observe the same `UnixNano` value receive the identical id — uniqueness
is not guaranteed by construction. -/
theorem generateClientID_pure_clock_function (t : Int) :
    generateClientID t = "client_" ++ toString t := rfl

/-- The two wire chunks of a heartbeat frame, as the heartbeat loop sends
them. -/
def heartbeatChunks : List String :=
  frameChunks "heartbeat" (Json.obj [("timestamp", Json.num 100)])

/-- The two wire chunks of a broadcast notification frame. -/
def notificationChunks : List String :=
  frameChunks "mcp_notification" (formatMessageForSSE (NewNotification "ping" none))

lemma interleavings_two_two (a1 a2 b1 b2 : String) :
    interleavings [a1, a2] [b1, b2] =
      [[a1, a2, b1, b2], [a1, b1, a2, b2], [a1, b1, b2, a2],
       [b1, a1, a2, b2], [b1, a1, b2, a2], [b1, b2, a1, a2]] := by
  simp [interleavings]

set_option maxRecDepth 8192 in
/-- C9: `ClientConnection` carries no per-connection write lock, so two
deliveries triggered concurrently against the same connection (say a
heartbeat tick and a broadcast) write to the shared sink unsynchronized;
among the possible orders is one that is not either frame followed by
the other — a partial interleave of the two frames' lines. -/
theorem unsynchronized_sink_writes_can_interleave :
    ∃ out ∈ concurrentWriteOutcomes heartbeatChunks notificationChunks,
      out ≠ String.join heartbeatChunks ++ String.join notificationChunks ∧
      out ≠ String.join notificationChunks ++ String.join heartbeatChunks := by
  simp only [concurrentWriteOutcomes, heartbeatChunks, notificationChunks, frameChunks,
    interleavings_two_two, List.map_cons, List.map_nil]
  decide

/-- C10: Go map assignment in `addClient` silently replaces an entry whose
id is already present — afterwards the lookup of that id yields the new
connection, the connected count is unchanged, and no effect (in
particular no terminal-signal close on the displaced connection) is
performed. -/
lemma find_after_replace (l : List ClientConnection) (c : ClientConnection)
    (h : l.any (fun x => x.id == c.id) = true) :
    (l.map (fun x => if x.id == c.id then c else x)).find? (fun x => x.id == c.id) =
      some c := by
  induction l with
  | nil => simp at h
  | cons a l ih =>
      by_cases ha : (a.id == c.id) = true
      · simp [List.find?, ha]
      · have haf : (a.id == c.id) = false := by
          simpa using ha
        have h' : l.any (fun x => x.id == c.id) = true := by
          rw [List.any_cons, haf] at h
          simpa using h
        simp only [List.map_cons, haf, Bool.false_eq_true, if_false, List.find?]
        exact ih h'

theorem addClient_replaces_existing_entry (sh : StreamHandler) (c : ClientConnection)
    (h : sh.clients.any (fun x => x.id == c.id) = true) :
    lookupClient (addClient sh c).1 c.id = some c ∧
    GetConnectedClients (addClient sh c).1 = GetConnectedClients sh ∧
    (addClient sh c).2 = [] := by
  unfold addClient
  simp only [h, if_true]
  exact ⟨find_after_replace sh.clients c h, by simp [GetConnectedClients], trivial⟩

/-- The replacement connection registered under the already-present id
`"a"`. -/
def replacementClientA : ClientConnection :=
  { id := "a", done := false, body := ["fresh"], lastSeen := 8 }

/-- C10 witness: re-registering id `"a"` on the registry that already
holds a connection `"a"`. -/
theorem addClient_replaces_existing_entry_witness :
    registryWithA.clients.any (fun x => x.id == replacementClientA.id) = true ∧
    (lookupClient (addClient registryWithA replacementClientA).1 replacementClientA.id =
       some replacementClientA ∧
     GetConnectedClients (addClient registryWithA replacementClientA).1 =
       GetConnectedClients registryWithA ∧
     (addClient registryWithA replacementClientA).2 = []) :=
  ⟨by decide, addClient_replaces_existing_entry registryWithA replacementClientA (by decide)⟩

end GithubMcp
